import Mathlib

/-!
Verification of the Product REST API (Express + express-validator + Sequelize).

The development shallowly embeds:
* the declarative validation chains attached to each route in `src/router.ts`
  (express-validator semantics: every validator of a chain is evaluated on the
  request field, each failing validator contributing one `{path, msg}` error,
  chains evaluated in registration order);
* the six request handlers of `src/handlers/product.ts`
  (`getProducts`, `getProductById`, `createProduct`, `updateProduct`,
  `updateAvailability`, `deleteProduct`);
* the routing table of `src/router.ts` wiring validation chains, the
  error-short-circuiting middleware and the handlers.

The persistent store is made explicit: a `Store` value is threaded through
every request, and each route is a function `... → Store → Store × Resp`.
-/

namespace ProductApi

/-- A JSON scalar as it appears in a request body.  Bodies in this API are
flat objects of scalars (name, price, availability), so nested objects and
arrays are not modelled. -/
inductive JsonValue where
  | str (s : String)
  | num (n : Int)
  | bool (b : Bool)
  | null
deriving Repr, DecidableEq

/-- A request body: an untyped key/value mapping, as the spec describes. -/
abbrev Body := List (String × JsonValue)

/-- Field lookup in a request body (`req.body.<k>`), `none` when absent. -/
def Body.field (b : Body) (k : String) : Option JsonValue :=
  b.lookup k

/-- The string express-validator hands to its string-based validators:
`undefined` and `null` become `""`, numbers and booleans are stringified. -/
def toValidatorString : Option JsonValue → String
  | none => ""
  | some (.str s) => s
  | some (.num n) => toString n
  | some (.bool b) => if b then "true" else "false"
  | some .null => ""

/-- Digit run recogniser used by the integer/numeric format validators. -/
def allDigits (cs : List Char) : Bool :=
  !cs.isEmpty && cs.all (·.isDigit)

/-- validator.js `isInt` (default options): optional sign followed by a
non-empty run of decimal digits. -/
def isIntStr (s : String) : Bool :=
  match s.data with
  | '-' :: cs => allDigits cs
  | '+' :: cs => allDigits cs
  | cs => allDigits cs

/-- Unsigned part of validator.js `isNumeric`: `[0-9]*[.]?[0-9]+` with the
dot requiring digits after it (the regex is `([0-9]*[.])?[0-9]+`). -/
def numericCore (cs : List Char) : Bool :=
  let rest := cs.dropWhile (·.isDigit)
  match rest with
  | [] => !cs.isEmpty
  | c :: frac => c = '.' && allDigits frac

/-- validator.js `isNumeric` (default options): optional sign, then digits
with at most one decimal point and at least one digit. -/
def isNumericStr (s : String) : Bool :=
  match s.data with
  | '-' :: cs => numericCore cs
  | '+' :: cs => numericCore cs
  | cs => numericCore cs

/-- validator.js `isBoolean` (default loose mode): the stringified value is
one of `true`, `false`, `0`, `1`. -/
def isBooleanStr (s : String) : Bool :=
  s == "true" || s == "false" || s == "0" || s == "1"

/-- Value of a non-empty digit run. -/
def natOfDigits (cs : List Char) : Nat :=
  cs.foldl (fun n c => n * 10 + (c.toNat - '0'.toNat)) 0

/-- Integer value of a string that passed `isIntStr` (junk value `0` on
other strings; every use in a route is guarded by the `isInt` validator). -/
def parseIntStr (s : String) : Int :=
  match s.data with
  | '-' :: cs => -(Int.ofNat (natOfDigits cs))
  | '+' :: cs => Int.ofNat (natOfDigits cs)
  | cs => Int.ofNat (natOfDigits cs)

/-- JavaScript truth of `value > 0` for the raw body value, as evaluated by
the `.custom((value) => value > 0)` rule: missing and `null` compare as
`false`, numbers compare numerically, numeric strings are coerced (positive
iff they carry a non-zero digit and no leading minus), booleans coerce to
0/1, non-numeric strings give `NaN` hence `false`. -/
def jsGtZero : Option JsonValue → Bool
  | some (.num n) => decide (0 < n)
  | some (.str s) =>
      isNumericStr s && s.data.any (fun c => c.isDigit && c != '0')
        && !(s.startsWith "-")
  | some (.bool b) => b
  | _ => false

/-- One itemised validation error, as placed in the `errors` array of a 400
response: the field path and the `withMessage` text. -/
structure FieldError where
  path : String
  msg : String
deriving Repr, DecidableEq

/-- The constraints used by this router's chains. -/
inductive VRule where
  | intFormat
  | nonEmpty
  | numericVal
  | booleanVal
  | gtZero
deriving Repr, DecidableEq

/-- Evaluate one validator on a request field (`true` = rule satisfied). -/
def runRule : VRule → Option JsonValue → Bool
  | .intFormat, v => isIntStr (toValidatorString v)
  | .nonEmpty, v => toValidatorString v != ""
  | .numericVal, v => isNumericStr (toValidatorString v)
  | .booleanVal, v => isBooleanStr (toValidatorString v)
  | .gtZero, v => jsGtZero v

/-- Run a whole express-validator chain on one field: every validator is
evaluated (no bail), each failure contributing one error in chain order. -/
def runChain (field : String) (v : Option JsonValue) :
    List (VRule × String) → List FieldError :=
  List.filterMap fun rm => if runRule rm.1 v then none else some ⟨field, rm.2⟩

/-- `param("id").isInt().withMessage("ID no valido")` of `src/router.ts`. -/
def idParamErrors (idParam : String) : List FieldError :=
  runChain "id" (some (.str idParam)) [(.intFormat, "ID no valido")]

/-- `body("name").notEmpty().withMessage(...)` of `src/router.ts`. -/
def nameBodyErrors (b : Body) : List FieldError :=
  runChain "name" (b.field "name")
    [(.nonEmpty, "El nombre del producto no puede ir vacio")]

/-- The three-rule `body("price")` chain of `src/router.ts`:
`isNumeric`, `notEmpty`, `custom((value) => value > 0)`, each with its
`withMessage` text (the `notEmpty` message is the copied name message, as in
the source). -/
def priceBodyErrors (b : Body) : List FieldError :=
  runChain "price" (b.field "price")
    [(.numericVal, "Valor no válido"),
     (.nonEmpty, "El nombre del producto no puede ir vacio"),
     (.gtZero, "Precio no valido")]

/-- `body("availability").isBoolean().withMessage(...)` of the PUT route. -/
def availabilityBodyErrors (b : Body) : List FieldError :=
  runChain "availability" (b.field "availability")
    [(.booleanVal, "El campo no puede ir vacio")]

/-- Body-chain errors of `router.post("/")`: name chain then price chain. -/
def postErrors (b : Body) : List FieldError :=
  nameBodyErrors b ++ priceBodyErrors b

/-- Body-chain errors of `router.put("/:id")` (the chains after the id
param chain): name, price, availability, in registration order. -/
def putBodyErrors (b : Body) : List FieldError :=
  nameBodyErrors b ++ priceBodyErrors b ++ availabilityBodyErrors b

/-- All errors of `router.put("/:id")`: the id chain runs first. -/
def putErrors (idParam : String) (b : Body) : List FieldError :=
  idParamErrors idParam ++ putBodyErrors b

/-- The persisted Product entity (`id` integer primary key, `name` text,
`price` numeric, `availability` boolean). -/
structure Product where
  id : Int
  name : String
  price : Int
  availability : Bool
deriving Repr, DecidableEq

/-- The persistent store: the product table (in insertion order) plus the
next primary key the store will assign. -/
structure Store where
  products : List Product
  nextId : Int
deriving Repr, DecidableEq

/-- Modelled from the spec: `Product.findByPk(id)` of the Sequelize model
(`src/models/Product.model.ts` is not under `src/`); `findById(id) ->
Product or absent`, reading the latest committed state. -/
def findByPk (st : Store) (i : Int) : Option Product :=
  st.products.find? fun p => p.id == i

/-- Ordering comparator of `findAll({ order: [["id", "DESC"]] })`. -/
def idDesc (a b : Product) : Prop := b.id ≤ a.id

instance : DecidableRel idDesc := fun a b => Int.decLe b.id a.id

instance : IsTotal Product idDesc :=
  ⟨fun a b => (le_total b.id a.id).elim Or.inl Or.inr⟩

instance : IsTrans Product idDesc :=
  ⟨fun _ _ _ hab hbc => le_trans hbc hab⟩

/-- Modelled from the spec: `Product.findAll({order: [["id","DESC"]]})` —
`listAll() -> ordered sequence of Product, newest id first`. -/
def findAllDesc (st : Store) : List Product :=
  st.products.insertionSort idDesc

/-- Sequelize coercion of a body value into the TEXT `name` column. -/
def jsonToText (v : JsonValue) : String :=
  toValidatorString (some v)

/-- Coercion of a body value into the numeric `price` column (numeric
strings are coerced; prices are modelled at integer precision, which the
routes' validated inputs exercise). -/
def jsonToPrice (v : JsonValue) : Int :=
  match v with
  | .num n => n
  | .str s => parseIntStr s
  | .bool b => if b then 1 else 0
  | .null => 0

/-- Coercion of a body value into the BOOLEAN `availability` column. -/
def jsonToBool (v : JsonValue) : Bool :=
  match v with
  | .bool b => b
  | .str s => s != ""
  | .num n => n != 0
  | .null => false

/-- Modelled from the spec: the record built by `Product.create(req.body)` —
`create(fields)` assigns the next id and applies the default
`availability = true` exactly when the field is unspecified. -/
def buildProduct (st : Store) (b : Body) : Product :=
  { id := st.nextId
    name := (b.field "name").elim "" jsonToText
    price := (b.field "price").elim 0 jsonToPrice
    availability := (b.field "availability").elim true jsonToBool }

/-- Modelled from the spec: `Product.create(req.body)` — appends the built
record and advances the id sequence. -/
def createRecord (st : Store) (b : Body) : Store × Product :=
  ({ products := st.products ++ [buildProduct st b], nextId := st.nextId + 1 },
   buildProduct st b)

/-- Modelled from the spec: `product.update(req.body)` — replaces each
supplied attribute of the in-memory record, keeping absent ones. -/
def applyBody (p : Product) (b : Body) : Product :=
  { p with
    name := (b.field "name").elim p.name jsonToText
    price := (b.field "price").elim p.price jsonToPrice
    availability := (b.field "availability").elim p.availability jsonToBool }

/-- Modelled from the spec: `product.save()` — `save(product)` persists the
in-memory mutation back to the store (a single record-level write on the
row with the product's primary key). -/
def saveRecord (st : Store) (p : Product) : Store :=
  { st with products := st.products.map fun q => if q.id == p.id then p else q }

/-- Modelled from the spec: `product.destroy()` — `delete(product)`
permanently removes the record (no soft delete). -/
def destroyRecord (st : Store) (p : Product) : Store :=
  { st with products := st.products.filter fun q => q.id != p.id }

/-- An HTTP response body as shaped by the handlers. -/
inductive RespBody where
  | dataProduct (p : Product)
  | dataList (l : List Product)
  | dataStr (s : String)
  | errorMsg (e : String)
  | errors (es : List FieldError)
deriving Repr, DecidableEq

/-- An HTTP response: status code plus JSON body. -/
structure Resp where
  status : Nat
  body : RespBody
deriving Repr, DecidableEq

/-- `getProducts` of `src/handlers/product.ts`: list all, id descending. -/
def getProducts (st : Store) : Store × Resp :=
  (st, ⟨200, .dataList (findAllDesc st)⟩)

/-- `getProductById` of `src/handlers/product.ts`. -/
def getProductById (st : Store) (i : Int) : Store × Resp :=
  match findByPk st i with
  | none => (st, ⟨404, .errorMsg "Producto no encontrado"⟩)
  | some p => (st, ⟨200, .dataProduct p⟩)

/-- `createProduct` of `src/handlers/product.ts`: forwards the whole
request body to `Product.create`. -/
def createProduct (st : Store) (b : Body) : Store × Resp :=
  let r := createRecord st b
  (r.1, ⟨201, .dataProduct r.2⟩)

/-- `updateProduct` of `src/handlers/product.ts`. -/
def updateProduct (st : Store) (i : Int) (b : Body) : Store × Resp :=
  match findByPk st i with
  | none => (st, ⟨404, .errorMsg "Producto no encontrado"⟩)
  | some p =>
      let p2 := applyBody p b
      (saveRecord st p2, ⟨200, .dataProduct p2⟩)

/-- `updateAvailability` of `src/handlers/product.ts`: flips the stored
boolean (`product.availability = !product.dataValues.availability`) and
saves; the request body is never consulted. -/
def updateAvailability (st : Store) (i : Int) : Store × Resp :=
  match findByPk st i with
  | none => (st, ⟨404, .errorMsg "Producto no encontrado"⟩)
  | some p =>
      let p2 := { p with availability := !p.availability }
      (saveRecord st p2, ⟨200, .dataProduct p2⟩)

/-- `deleteProduct` of `src/handlers/product.ts`. -/
def deleteProduct (st : Store) (i : Int) : Store × Resp :=
  match findByPk st i with
  | none => (st, ⟨404, .errorMsg "Producto no encontrado"⟩)
  | some p => (destroyRecord st p, ⟨200, .dataStr "Producto Eliminado"⟩)

/-- Modelled from the spec: the `handleInputErrors` middleware
(`src/middleware` is not under `src/`) — if any validation rule failed, the
request is rejected with 400 and the itemised errors before the handler
runs; otherwise the handler's result stands. -/
def handleInputErrors (es : List FieldError) (st : Store)
    (next : Store × Resp) : Store × Resp :=
  if es.isEmpty then next else (st, ⟨400, .errors es⟩)

/-- `router.get("/")`. -/
def routerGetAll (st : Store) : Store × Resp :=
  getProducts st

/-- `router.get("/:id")`: id chain, `handleInputErrors`, `getProductById`. -/
def routerGetId (idParam : String) (st : Store) : Store × Resp :=
  handleInputErrors (idParamErrors idParam) st
    (getProductById st (parseIntStr idParam))

/-- `router.post("/")`: name and price chains, `handleInputErrors`,
`createProduct`. -/
def routerPost (b : Body) (st : Store) : Store × Resp :=
  handleInputErrors (postErrors b) st (createProduct st b)

/-- `router.put("/:id")`: id, name, price and availability chains,
`handleInputErrors`, `updateProduct`. -/
def routerPut (idParam : String) (b : Body) (st : Store) : Store × Resp :=
  handleInputErrors (putErrors idParam b) st
    (updateProduct st (parseIntStr idParam) b)

/-- `router.patch("/:id")`: id chain, `handleInputErrors`,
`updateAvailability`.  The request body is a parameter only to record that
the route receives one; the handler ignores it. -/
def routerPatch (idParam : String) (_b : Body) (st : Store) : Store × Resp :=
  handleInputErrors (idParamErrors idParam) st
    (updateAvailability st (parseIntStr idParam))

/-- `router.delete("/:id")`: id chain, `handleInputErrors`,
`deleteProduct`. -/
def routerDelete (idParam : String) (st : Store) : Store × Resp :=
  handleInputErrors (idParamErrors idParam) st
    (deleteProduct st (parseIntStr idParam))

/-- The availability flip performed by `updateAvailability`. -/
def flipA (p : Product) : Product :=
  { p with availability := !p.availability }

/-- Applying `patch` `n` times in succession to a store (always through the
same id parameter and an empty body). -/
def patchTimes (s : String) : Nat → Store → Store
  | 0, st => st
  | n + 1, st => patchTimes s n (routerPatch s [] st).1

/-! ### Helper lemmas -/

theorem flipA_id (p : Product) : (flipA p).id = p.id := rfl

theorem flipA_flipA (p : Product) : flipA (flipA p) = p := by
  cases p
  simp [flipA]

theorem idParamErrors_eq_nil {s : String} (h : isIntStr s = true) :
    idParamErrors s = [] := by
  simp [idParamErrors, runChain, runRule, toValidatorString, h]

theorem idParamErrors_eq_fail {s : String} (h : isIntStr s = false) :
    idParamErrors s = [⟨"id", "ID no valido"⟩] := by
  simp [idParamErrors, runChain, runRule, toValidatorString, h]

theorem find?_replace (p2 : Product) (i : Int) (h : p2.id = i) :
    ∀ l : List Product,
      List.find? (fun q => q.id == i) (l.map fun q => if q.id == p2.id then p2 else q)
        = Option.map (fun _ => p2) (List.find? (fun q => q.id == i) l) := by
  intro l
  induction l with
  | nil => rfl
  | cons q l ih =>
      rw [List.map_cons, List.find?_cons, List.find?_cons]
      by_cases hq : q.id = i
      · have h1 : (q.id == p2.id) = true := by simp [h, hq]
        have h2 : (q.id == i) = true := by simp [hq]
        have h3 : (p2.id == i) = true := by simp [h]
        rw [if_pos h1, h2, h3]
        rfl
      · have h1 : ¬((q.id == p2.id) = true) := by simp [h]; exact hq
        have h2 : (q.id == i) = false := by simp [hq]
        rw [if_neg h1, h2]
        exact ih

theorem findByPk_saveRecord (st : Store) (p2 : Product) (i : Int)
    (h : p2.id = i) :
    findByPk (saveRecord st p2) i = Option.map (fun _ => p2) (findByPk st i) := by
  simpa [findByPk, saveRecord] using find?_replace p2 i h st.products

theorem findByPk_destroyRecord (st : Store) (p : Product) :
    findByPk (destroyRecord st p) p.id = none := by
  simp only [findByPk, destroyRecord, List.find?_eq_none]
  intro q hq
  have := (List.mem_filter.mp hq).2
  simpa using this

theorem handleInputErrors_nil (st : Store) (next : Store × Resp) :
    handleInputErrors [] st next = next := rfl

theorem handleInputErrors_cons (e : FieldError) (es : List FieldError)
    (st : Store) (next : Store × Resp) :
    handleInputErrors (e :: es) st next = (st, ⟨400, .errors (e :: es)⟩) := rfl

theorem routerPatch_found (s : String) (b : Body) (st : Store) (p : Product)
    (hs : isIntStr s = true) (hid : parseIntStr s = p.id)
    (hf : findByPk st p.id = some p) :
    routerPatch s b st
      = (saveRecord st (flipA p), ⟨200, .dataProduct (flipA p)⟩) := by
  simp [routerPatch, idParamErrors_eq_nil hs, handleInputErrors,
    updateAvailability, hid, hf, flipA]

theorem findByPk_after_patch (st : Store) (p : Product)
    (hf : findByPk st p.id = some p) :
    findByPk (saveRecord st (flipA p)) p.id = some (flipA p) := by
  rw [findByPk_saveRecord st (flipA p) p.id (flipA_id p), hf]
  rfl

/-! ### Fixtures used by witnesses -/

/-- A persisted sample product. -/
def mouse : Product := ⟨1, "Mouse", 500, true⟩

/-- A store holding only `mouse`, next id 2. -/
def stM : Store := ⟨[mouse], 2⟩

/-- A body passing every body-field rule of the PUT and POST routes. -/
def okBody : Body :=
  [("name", .str "monitor curvo"), ("price", .num 300),
   ("availability", .bool true)]

/-! ### Claims -/

/-- Claim C1, counterexample to the claim as stated: on the id-parameterised
route PUT `/api/products/abc` with an empty body, the response is 400 but its
error list has six entries (not exactly one), and no entry's message is the
claimed "invalid id" (the source message is "ID no valido"). -/
theorem claim1_counterexample :
    (routerPut "abc" [] ⟨[], 1⟩).2.status = 400
    ∧ (routerPut "abc" [] ⟨[], 1⟩).2.body = .errors (putErrors "abc" [])
    ∧ (putErrors "abc" []).length = 6
    ∧ (putErrors "abc" []).all (fun e => e.msg != "invalid id") = true := by
  exact ⟨rfl, rfl, rfl, by decide⟩

/-- Claim C1 (amended): for every request to an id-parameterised route
(GET/PUT/PATCH/DELETE `/api/products/:id`) whose id does not parse as an
integer, the response is 400 carrying the error entry
`{path: id, msg: "ID no valido"}`; for GET, PATCH and DELETE this is the only
entry, while PUT appends its body-chain errors after it (exactly one entry
when the body passes validation).  The 400 is produced before any repository
lookup: the store is returned unchanged and the response is the same for
every store, so a 404 can never occur for a syntactically invalid id. -/
theorem claim1_invalid_id_rejected (idParam : String) (b : Body) (st : Store)
    (h : isIntStr idParam = false) :
    routerGetId idParam st = (st, ⟨400, .errors [⟨"id", "ID no valido"⟩]⟩)
    ∧ routerPatch idParam b st = (st, ⟨400, .errors [⟨"id", "ID no valido"⟩]⟩)
    ∧ routerDelete idParam st = (st, ⟨400, .errors [⟨"id", "ID no valido"⟩]⟩)
    ∧ routerPut idParam b st
        = (st, ⟨400, .errors (⟨"id", "ID no valido"⟩ :: putBodyErrors b)⟩)
    ∧ (putBodyErrors b = [] →
        routerPut idParam b st
          = (st, ⟨400, .errors [⟨"id", "ID no valido"⟩]⟩)) := by
  have he := idParamErrors_eq_fail h
  refine ⟨?_, ?_, ?_, ?_, ?_⟩
  · rw [routerGetId, he, handleInputErrors_cons]
  · rw [routerPatch, he, handleInputErrors_cons]
  · rw [routerDelete, he, handleInputErrors_cons]
  · rw [routerPut, putErrors, he, List.singleton_append, handleInputErrors_cons]
  · intro hb
    rw [routerPut, putErrors, he, hb, List.append_nil, handleInputErrors_cons]

/-- Witness for claim C1 at id "abc". -/
theorem claim1_invalid_id_rejected_witness :
    isIntStr "abc" = false
    ∧ routerGetId "abc" ⟨[], 1⟩
        = (⟨[], 1⟩, ⟨400, .errors [⟨"id", "ID no valido"⟩]⟩) :=
  ⟨by decide, (claim1_invalid_id_rejected "abc" [] ⟨[], 1⟩ (by decide)).1⟩

/-- Claim C3, counterexample to the claim as stated: GET `/api/products/2000`
against the empty store responds 404, but with the source message
"Producto no encontrado", not the claimed "Product not found". -/
theorem claim3_counterexample :
    routerGetId "2000" ⟨[], 1⟩
      = (⟨[], 1⟩, ⟨404, .errorMsg "Producto no encontrado"⟩)
    ∧ "Producto no encontrado" ≠ "Product not found" :=
  ⟨rfl, by decide⟩

/-- Claim C3 (amended): for every GET `/api/products/:id` with an integer id
matching no persisted record, the response is 404 with body
`{error: "Producto no encontrado"}`; the same 404 body is produced by the
absent branch of PATCH, DELETE and (when its body validation passes) PUT. -/
theorem claim3_not_found (st : Store) (s : String) (b : Body)
    (hs : isIntStr s = true)
    (hf : findByPk st (parseIntStr s) = none) :
    routerGetId s st = (st, ⟨404, .errorMsg "Producto no encontrado"⟩)
    ∧ routerPatch s b st = (st, ⟨404, .errorMsg "Producto no encontrado"⟩)
    ∧ routerDelete s st = (st, ⟨404, .errorMsg "Producto no encontrado"⟩)
    ∧ (putBodyErrors b = [] →
        routerPut s b st = (st, ⟨404, .errorMsg "Producto no encontrado"⟩)) := by
  have he := idParamErrors_eq_nil hs
  refine ⟨?_, ?_, ?_, ?_⟩
  · rw [routerGetId, he, handleInputErrors_nil, getProductById, hf]
  · rw [routerPatch, he, handleInputErrors_nil, updateAvailability, hf]
  · rw [routerDelete, he, handleInputErrors_nil, deleteProduct, hf]
  · intro hb
    rw [routerPut, putErrors, he, hb, List.append_nil, handleInputErrors_nil,
      updateProduct, hf]

/-- Witness for claim C3 at id "7" against the empty store with a fully
valid body. -/
theorem claim3_not_found_witness :
    isIntStr "7" = true
    ∧ findByPk ⟨[], 1⟩ (parseIntStr "7") = none
    ∧ putBodyErrors okBody = []
    ∧ routerPut "7" okBody ⟨[], 1⟩
        = (⟨[], 1⟩, ⟨404, .errorMsg "Producto no encontrado"⟩) :=
  ⟨by decide, by decide, by decide,
    (claim3_not_found ⟨[], 1⟩ "7" okBody (by decide) (by decide)).2.2.2
      (by decide)⟩

/-- Claim C4, counterexample to the claim as stated: DELETE
`/api/products/1` on a store holding product 1 responds 200 with the source
literal "Producto Eliminado", not the claimed "Product deleted". -/
theorem claim4_counterexample :
    routerDelete "1" stM = (⟨[], 2⟩, ⟨200, .dataStr "Producto Eliminado"⟩)
    ∧ "Producto Eliminado" ≠ "Product deleted" :=
  ⟨by decide, by decide⟩

/-- Claim C4 (amended): DELETE `/api/products/:id` on an existing record
responds 200 with the literal confirmation string payload
`{data: "Producto Eliminado"}` (not the deleted entity), the record is
permanently removed from the store, and a subsequent GET for the same id
returns 404. -/
theorem claim4_delete_removes (st : Store) (s : String) (p : Product)
    (hs : isIntStr s = true) (hid : parseIntStr s = p.id)
    (hf : findByPk st p.id = some p) :
    routerDelete s st = (destroyRecord st p, ⟨200, .dataStr "Producto Eliminado"⟩)
    ∧ findByPk (destroyRecord st p) p.id = none
    ∧ routerGetId s (destroyRecord st p)
        = (destroyRecord st p, ⟨404, .errorMsg "Producto no encontrado"⟩) := by
  have he := idParamErrors_eq_nil hs
  refine ⟨?_, findByPk_destroyRecord st p, ?_⟩
  · rw [routerDelete, he, handleInputErrors_nil, deleteProduct, hid, hf]
  · rw [routerGetId, he, handleInputErrors_nil, getProductById, hid,
      findByPk_destroyRecord st p]

/-- Witness for claim C4: deleting product 1 from the one-product store. -/
theorem claim4_delete_removes_witness :
    isIntStr "1" = true
    ∧ parseIntStr "1" = mouse.id
    ∧ findByPk stM mouse.id = some mouse
    ∧ routerDelete "1" stM
        = (destroyRecord stM mouse, ⟨200, .dataStr "Producto Eliminado"⟩) :=
  ⟨by decide, by decide, by decide,
    (claim4_delete_removes stM "1" mouse (by decide) (by decide) (by decide)).1⟩

/-- Claim C5: a POST `/api/products` with an empty body responds 400 with
exactly 4 validation error entries — the name `notEmpty` rule and the three
price rules (`isNumeric`, `notEmpty`, custom `> 0`), each contributing its
own entry — for every store. -/
theorem claim5_empty_post_four_errors (st : Store) :
    routerPost [] st
      = (st, ⟨400, .errors
          [⟨"name", "El nombre del producto no puede ir vacio"⟩,
           ⟨"price", "Valor no válido"⟩,
           ⟨"price", "El nombre del producto no puede ir vacio"⟩,
           ⟨"price", "Precio no valido"⟩]⟩)
    ∧ (postErrors []).length = 4 :=
  ⟨rfl, rfl⟩

/-- Claim C6: a PUT `/api/products/:id` with a syntactically valid id and
all required body fields (name, price, availability) missing responds 400
with exactly 5 validation error entries — name, the three price sub-rules,
and availability (the id rule passes). -/
theorem claim6_put_missing_fields_five_errors (st : Store) (s : String)
    (hs : isIntStr s = true) :
    routerPut s [] st
      = (st, ⟨400, .errors
          [⟨"name", "El nombre del producto no puede ir vacio"⟩,
           ⟨"price", "Valor no válido"⟩,
           ⟨"price", "El nombre del producto no puede ir vacio"⟩,
           ⟨"price", "Precio no valido"⟩,
           ⟨"availability", "El campo no puede ir vacio"⟩]⟩)
    ∧ (putErrors s []).length = 5 := by
  have he := idParamErrors_eq_nil hs
  constructor
  · rw [routerPut, putErrors, he, List.nil_append]
    rfl
  · rw [putErrors, he, List.nil_append]
    rfl

/-- Witness for claim C6 at id "1". -/
theorem claim6_put_missing_fields_five_errors_witness :
    isIntStr "1" = true ∧ (putErrors "1" []).length = 5 :=
  ⟨by decide,
    (claim6_put_missing_fields_five_errors ⟨[], 1⟩ "1" (by decide)).2⟩

/-- Two successive PATCH requests through the same valid id leave the
product stored unchanged: each patch flips `availability`, and the flip is
an involution. -/
theorem patch_twice_findByPk (s : String) (p : Product)
    (hs : isIntStr s = true) (hid : parseIntStr s = p.id)
    (st : Store) (hf : findByPk st p.id = some p) :
    findByPk (routerPatch s [] (routerPatch s [] st).1).1 p.id = some p := by
  have h1 := routerPatch_found s [] st p hs hid hf
  have hf1 : findByPk (saveRecord st (flipA p)) p.id = some (flipA p) :=
    findByPk_after_patch st p hf
  have h2 := routerPatch_found s [] (saveRecord st (flipA p)) (flipA p) hs
    (hid.trans (flipA_id p).symm) hf1
  rw [h1]
  simp only [h2]
  have h3 := findByPk_after_patch (saveRecord st (flipA p)) (flipA p) hf1
  rw [flipA_id] at h3
  rw [flipA_flipA] at h3 ⊢
  exact h3

/-- Claim C2: for every existing product, one PATCH `/api/products/:id`
request flips its `availability` boolean and returns the new value in
`data.availability`; applying PATCH twice restores the original product
(the toggle is an involution), and any even number of PATCH calls leaves
the stored product — in particular its availability — identical to the
original. -/
theorem claim2_patch_toggle (st : Store) (s : String) (p : Product)
    (hs : isIntStr s = true) (hid : parseIntStr s = p.id)
    (hf : findByPk st p.id = some p) :
    (routerPatch s [] st).2 = ⟨200, .dataProduct (flipA p)⟩
    ∧ (flipA p).availability = !p.availability
    ∧ (routerPatch s [] (routerPatch s [] st).1).2 = ⟨200, .dataProduct p⟩
    ∧ ∀ k : Nat, findByPk (patchTimes s (2 * k) st) p.id = some p := by
  have h1 := routerPatch_found s [] st p hs hid hf
  have hf1 : findByPk (saveRecord st (flipA p)) p.id = some (flipA p) :=
    findByPk_after_patch st p hf
  have h2 := routerPatch_found s [] (saveRecord st (flipA p)) (flipA p) hs
    (hid.trans (flipA_id p).symm) hf1
  refine ⟨by rw [h1], rfl, ?_, ?_⟩
  · rw [h1]
    simp only [h2, flipA_flipA]
  · have key : ∀ k t, findByPk t p.id = some p →
        findByPk (patchTimes s (2 * k) t) p.id = some p := by
      intro k
      induction k with
      | zero => intro t ht; simpa [patchTimes] using ht
      | succ k ih =>
          intro t ht
          have hn : 2 * (k + 1) = 2 * k + 1 + 1 := by ring
          rw [hn]
          show findByPk
            (patchTimes s (2 * k) (routerPatch s [] (routerPatch s [] t).1).1)
            p.id = some p
          exact ih _ (patch_twice_findByPk s p hs hid t ht)
    intro k
    exact key k st hf

/-- Witness for claim C2 on the one-product store. -/
theorem claim2_patch_toggle_witness :
    isIntStr "1" = true
    ∧ parseIntStr "1" = mouse.id
    ∧ findByPk stM mouse.id = some mouse
    ∧ (routerPatch "1" [] stM).2 = ⟨200, .dataProduct (flipA mouse)⟩ :=
  ⟨by decide, by decide, by decide,
    (claim2_patch_toggle stM "1" mouse (by decide) (by decide) (by decide)).1⟩

/-- Claim C7: the PATCH `/api/products/:id` route performs no validation of
the request body and never reads it (the route's result is the same for
every payload), and its effect on the stored product is confined to the
availability field: after PATCH the product's id, name and price are
unchanged and only availability is flipped. -/
theorem claim7_patch_frame (st : Store) (s : String) (b : Body) (p : Product)
    (hs : isIntStr s = true) (hid : parseIntStr s = p.id)
    (hf : findByPk st p.id = some p) :
    (∀ b2 : Body, routerPatch s b2 st = routerPatch s b st)
    ∧ routerPatch s b st
        = (saveRecord st ⟨p.id, p.name, p.price, !p.availability⟩,
           ⟨200, .dataProduct ⟨p.id, p.name, p.price, !p.availability⟩⟩)
    ∧ findByPk (routerPatch s b st).1 p.id
        = some ⟨p.id, p.name, p.price, !p.availability⟩ := by
  have h1 := routerPatch_found s b st p hs hid hf
  refine ⟨fun _ => rfl, h1, ?_⟩
  rw [h1]
  exact findByPk_after_patch st p hf

/-- Witness for claim C7 on the one-product store with a junk payload. -/
theorem claim7_patch_frame_witness :
    isIntStr "1" = true
    ∧ parseIntStr "1" = mouse.id
    ∧ findByPk stM mouse.id = some mouse
    ∧ findByPk (routerPatch "1" [("price", .str "junk")] stM).1 mouse.id
        = some ⟨mouse.id, mouse.name, mouse.price, !mouse.availability⟩ :=
  ⟨by decide, by decide, by decide,
    (claim7_patch_frame stM "1" [("price", .str "junk")] mouse
      (by decide) (by decide) (by decide)).2.2⟩

/-- Claim C8: for every store state, GET `/api/products` responds 200 with
`{data: [...]}` holding exactly the persisted products (a permutation of
the table) ordered by descending id, newest id first. -/
theorem claim8_list_all_desc (st : Store) :
    routerGetAll st = (st, ⟨200, .dataList (findAllDesc st)⟩)
    ∧ (findAllDesc st).Perm st.products
    ∧ (findAllDesc st).Pairwise (fun a b : Product => b.id ≤ a.id) :=
  ⟨rfl, List.perm_insertionSort idDesc st.products,
    List.sorted_insertionSort idDesc st.products⟩

/-- Claim C9: for every id-based mutating route (PUT, PATCH, DELETE), when
the integer id matches no persisted record the handler responds 404 and
performs no write: the store after the request equals the store before
(for PUT, the 404 response requires the body to pass validation, but the
store is preserved in every case). -/
theorem claim9_not_found_no_write (st : Store) (s : String) (b : Body)
    (hs : isIntStr s = true)
    (hf : findByPk st (parseIntStr s) = none) :
    (routerPatch s b st).1 = st
    ∧ (routerPatch s b st).2.status = 404
    ∧ (routerDelete s st).1 = st
    ∧ (routerDelete s st).2.status = 404
    ∧ (routerPut s b st).1 = st
    ∧ (putBodyErrors b = [] → (routerPut s b st).2.status = 404) := by
  have he := idParamErrors_eq_nil hs
  have hpatch : routerPatch s b st = (st, ⟨404, .errorMsg "Producto no encontrado"⟩) := by
    rw [routerPatch, he, handleInputErrors_nil, updateAvailability, hf]
  have hdel : routerDelete s st = (st, ⟨404, .errorMsg "Producto no encontrado"⟩) := by
    rw [routerDelete, he, handleInputErrors_nil, deleteProduct, hf]
  refine ⟨by rw [hpatch], by rw [hpatch], by rw [hdel], by rw [hdel], ?_, ?_⟩
  · rw [routerPut, putErrors, he, List.nil_append]
    cases hb : putBodyErrors b with
    | nil => rw [handleInputErrors_nil, updateProduct, hf]
    | cons e es => rw [handleInputErrors_cons]
  · intro hb
    rw [routerPut, putErrors, he, hb, List.append_nil, handleInputErrors_nil,
      updateProduct, hf]

/-- Witness for claim C9 at id "7" against the one-product store. -/
theorem claim9_not_found_no_write_witness :
    isIntStr "7" = true
    ∧ findByPk stM (parseIntStr "7") = none
    ∧ (routerPatch "7" [] stM).1 = stM :=
  ⟨by decide, by decide,
    (claim9_not_found_no_write stM "7" [] (by decide) (by decide)).1⟩

/-- Claim C10: the create handler forwards the entire request body to the
store unfiltered — a validated POST `/api/products` persists
`buildProduct st b`, a function of the whole body — so a supplied
`availability` value (in particular `false`) is persisted as supplied, and
the default `availability = true` applies exactly when the field is absent
from the body. -/
theorem claim10_create_forwards_body (st : Store) (b : Body)
    (hv : postErrors b = []) :
    routerPost b st
      = ({ products := st.products ++ [buildProduct st b],
           nextId := st.nextId + 1 },
         ⟨201, .dataProduct (buildProduct st b)⟩)
    ∧ (b.field "availability" = none → (buildProduct st b).availability = true)
    ∧ (∀ v : JsonValue, b.field "availability" = some v →
        (buildProduct st b).availability = jsonToBool v)
    ∧ (∀ bv : Bool, b.field "availability" = some (.bool bv) →
        (buildProduct st b).availability = bv) := by
  refine ⟨?_, ?_, ?_, ?_⟩
  · rw [routerPost, hv, handleInputErrors_nil]
    rfl
  · intro h
    simp [buildProduct, h]
  · intro v h
    simp [buildProduct, h]
  · intro bv h
    simp [buildProduct, h, jsonToBool]

/-- Witness for claim C10: a valid create body carrying
`availability: false` is persisted with availability `false`. -/
theorem claim10_create_forwards_body_witness :
    postErrors [("name", .str "Mouse - TEST"), ("price", .num 500),
      ("availability", .bool false)] = []
    ∧ (buildProduct ⟨[], 1⟩
        [("name", .str "Mouse - TEST"), ("price", .num 500),
         ("availability", .bool false)]).availability = false :=
  ⟨by decide,
    (claim10_create_forwards_body ⟨[], 1⟩
        [("name", .str "Mouse - TEST"), ("price", .num 500),
         ("availability", .bool false)] (by decide)).2.2.2 false (by decide)⟩

end ProductApi
